import Mathlib

/-!
# Verification of the Hierophant Hymn territory generator

A shallow embedding of the map-generation pipeline (seeded LCG randomness,
Lloyd-relaxed point sampling over an abstract Voronoi partitioner, terrain
classification, resource / population / culture metadata, naming, colors)
together with proofs and refutations of the specified properties.

Modelling conventions:
* JavaScript numbers are modelled exactly: integer-valued state as `ℤ`,
  fractional arithmetic as `ℚ`, and `Math.sqrt` as `Real.sqrt` (the only
  irrational operation in the source).  JavaScript's `%` operator is the
  truncated remainder, i.e. `Int.tmod`.
* `Math.floor` is `Int.floor`, `Math.round` is Mathlib's `round`
  (`round x = ⌊x + 1/2⌋`, which agrees with JS `Math.round` everywhere).
* The d3-delaunay Voronoi partitioner is an external capability; it is
  modelled as an explicit function parameter
  `points → bounds → index → Option polygon`.
* The unbounded `while` loop of the name generator is modelled with fuel.
-/

namespace MapGen

/-- State transition of `SeededRandom`: `this.seed = (this.seed * 9301 + 49297) % 233280`.
JS `%` is the truncated remainder, `Int.tmod`. -/
def stepSeed (s : ℤ) : ℤ := Int.tmod (s * 9301 + 49297) 233280

/-- Value returned by `SeededRandom.next()` when called in state `s`
(the state advances to `stepSeed s` and `state / 233280` is returned). -/
def nextVal (s : ℤ) : ℚ := (stepSeed s : ℚ) / 233280

/-- Value returned by `SeededRandom.nextInt(min, max)` when called in state `s`:
`Math.floor(this.next() * (max - min + 1)) + min`. -/
def nextIntVal (mn mx s : ℤ) : ℤ := ⌊nextVal s * ((mx : ℚ) - (mn : ℚ) + 1)⌋ + mn

lemma stepSeed_nonneg {s : ℤ} (hs : 0 ≤ s) : 0 ≤ stepSeed s :=
  Int.tmod_nonneg _ (by positivity)

lemma stepSeed_lt (s : ℤ) : stepSeed s < 233280 :=
  Int.tmod_lt_of_pos _ (by norm_num)

lemma stepSeed_eq_emod {s : ℤ} (hs : 0 ≤ s) :
    stepSeed s = (s * 9301 + 49297) % 233280 :=
  Int.tmod_eq_emod (by positivity) (by norm_num)

lemma nextVal_nonneg {s : ℤ} (hs : 0 ≤ s) : 0 ≤ nextVal s := by
  have h := stepSeed_nonneg hs
  unfold nextVal
  positivity

lemma nextVal_lt_one (s : ℤ) : nextVal s < 1 := by
  have h := stepSeed_lt s
  rw [nextVal, div_lt_one (by norm_num)]
  exact_mod_cast h

lemma nextIntVal_le {mn mx s : ℤ} (hs : 0 ≤ s) (hmn : mn ≤ mx) :
    nextIntVal mn mx s ≤ mx := by
  have h1 : nextVal s * ((mx : ℚ) - (mn : ℚ) + 1) < (mx : ℚ) - (mn : ℚ) + 1 := by
    have hpos : (0 : ℚ) < (mx : ℚ) - (mn : ℚ) + 1 := by
      have : (mn : ℚ) ≤ (mx : ℚ) := by exact_mod_cast hmn
      linarith
    nlinarith [nextVal_lt_one s, nextVal_nonneg hs]
  have h2 : ⌊nextVal s * ((mx : ℚ) - (mn : ℚ) + 1)⌋ < mx - mn + 1 := by
    rw [Int.floor_lt]
    push_cast
    exact h1
  unfold nextIntVal
  omega

lemma nextIntVal_ge {mn mx s : ℤ} (hs : 0 ≤ s) (hmn : mn ≤ mx) :
    mn ≤ nextIntVal mn mx s := by
  have h1 : (0 : ℚ) ≤ nextVal s * ((mx : ℚ) - (mn : ℚ) + 1) := by
    have hpos : (0 : ℚ) ≤ (mx : ℚ) - (mn : ℚ) + 1 := by
      have : (mn : ℚ) ≤ (mx : ℚ) := by exact_mod_cast hmn
      linarith
    exact mul_nonneg (nextVal_nonneg hs) hpos
  have h2 : (0 : ℤ) ≤ ⌊nextVal s * ((mx : ℚ) - (mn : ℚ) + 1)⌋ := Int.floor_nonneg.2 h1
  unfold nextIntVal
  omega

/-- C1 (amended): for every nonnegative seed, `next()` advances the state to
`(state * 9301 + 49297) mod 233280` (the truncated and the mathematical
remainder agree on nonnegative inputs) and returns `state / 233280 ∈ [0, 1)`,
and for `min ≤ max` the value of `nextInt(min, max)` lies in `[min, max]`. -/
theorem seededRandom_contract (s mn mx : ℤ) (hs : 0 ≤ s) (hmn : mn ≤ mx) :
    stepSeed s = (s * 9301 + 49297) % 233280 ∧
    0 ≤ nextVal s ∧ nextVal s < 1 ∧
    mn ≤ nextIntVal mn mx s ∧ nextIntVal mn mx s ≤ mx :=
  ⟨stepSeed_eq_emod hs, nextVal_nonneg hs, nextVal_lt_one s,
    nextIntVal_ge hs hmn, nextIntVal_le hs hmn⟩

/-- Witness for C1's amended theorem at seed 1 and range `[0, 10]`. -/
theorem seededRandom_contract_witness :
    stepSeed 1 = (1 * 9301 + 49297) % 233280 ∧
    0 ≤ nextVal 1 ∧ nextVal 1 < 1 ∧
    (0 : ℤ) ≤ nextIntVal 0 10 1 ∧ nextIntVal 0 10 1 ≤ 10 :=
  seededRandom_contract 1 0 10 (by norm_num) (by norm_num)

/-- C1 counterexample: the claim quantifies over every integer seed, but the
JS `%` operator returns a negative remainder for a negative state.  At seed
`-10` the first `next()` returns `-43713 / 233280 < 0` (not in `[0, 1)`), and
`nextInt(0, 10)` returns `-3`, outside `[0, 10]`. -/
theorem seededRandom_negative_seed_counterexample :
    nextVal (-10) < 0 ∧ nextIntVal 0 10 (-10) = -3 := by
  have hstep : stepSeed (-10) = -43713 := by decide
  have hval : nextVal (-10) = (-43713 : ℚ) / 233280 := by
    rw [nextVal, hstep]; norm_num
  constructor
  · rw [hval]; norm_num
  · rw [nextIntVal, hval]; norm_num

/-! ## Terrain classifier (`generateTerrain`, metadataGenerator.ts) -/

/-- Local `distFromCenter` of `generateTerrain`:
`Math.sqrt((x - centerX)^2 + (y - centerY)^2)` with `centerX = width/2`,
`centerY = height/2`. -/
noncomputable def distFromCenter (x y w h : ℚ) : ℝ :=
  Real.sqrt (((x - w / 2) ^ 2 + (y - h / 2) ^ 2 : ℚ))

/-- Local `maxDist` of `generateTerrain`: `Math.sqrt((w/2)^2 + (h/2)^2)`. -/
noncomputable def maxDist (w h : ℚ) : ℝ :=
  Real.sqrt ((((w / 2) ^ 2 + (h / 2) ^ 2 : ℚ)))

/-- Local `normalizedDist` of `generateTerrain` (the spec's
`normalizedCenterDist`). -/
noncomputable def normalizedDist (x y w h : ℚ) : ℝ :=
  distFromCenter x y w h / maxDist w h

/-- Local `distFromEdge` of `generateTerrain`:
`Math.min(x, y, width - x, height - y)`. -/
def distFromEdge (x y w h : ℚ) : ℚ := min (min x y) (min (w - x) (h - y))

/-- Local `normalizedEdgeDist` of `generateTerrain`:
`distFromEdge / Math.min(width, height)`. -/
def normalizedEdgeDist (x y w h : ℚ) : ℚ := distFromEdge x y w h / min w h

/-- The ordered terrain rule chain of `generateTerrain` in metadataGenerator.ts.
The single RNG draw `rand = rng.next()` on a fresh `SeededRandom(seed)` is
`nextVal seed`; the local `rand` is inlined. -/
noncomputable def generateTerrain (x y w h : ℚ) (seed : ℤ) : String :=
  if normalizedEdgeDist x y w h < 15/100 ∧ nextVal seed < 6/10 then "mountains"
  else if normalizedEdgeDist x y w h < 2/10 ∧ normalizedDist x y w h < (7/10 : ℝ) ∧
      nextVal seed < 7/10 then "coastal"
  else if normalizedEdgeDist x y w h < 3/10 ∧ nextVal seed < 5/10 then "hills"
  else if normalizedDist x y w h < (5/10 : ℝ) ∧ nextVal seed < 6/10 then "plains"
  else if nextVal seed < 25/100 then "forest"
  else if normalizedDist x y w h > (6/10 : ℝ) ∧ nextVal seed < 3/10 then "desert"
  else "plains"

/-- Modelled from the spec, section 4.4: the ordered classification rule chain
over `normalizedCenterDist`, `normalizedEdgeDist` and the single draw `r`,
first matching rule winning, defaulting to plains.  This is the claim-side
definition against which the source's `generateTerrain` is compared. -/
noncomputable def specClassify (ncd : ℝ) (ned r : ℚ) : String :=
  if ned < 15/100 ∧ r < 6/10 then "mountains"
  else if ned < 2/10 ∧ ncd < (7/10 : ℝ) ∧ r < 7/10 then "coastal"
  else if ned < 3/10 ∧ r < 5/10 then "hills"
  else if ncd < (5/10 : ℝ) ∧ r < 6/10 then "plains"
  else if r < 25/100 then "forest"
  else if ncd > (6/10 : ℝ) ∧ r < 3/10 then "desert"
  else "plains"

lemma generateTerrain_mountains {x y w h : ℚ} {seed : ℤ}
    (h1 : normalizedEdgeDist x y w h < 15/100) (h2 : nextVal seed < 6/10) :
    generateTerrain x y w h seed = "mountains" := by
  unfold generateTerrain
  rw [if_pos ⟨h1, h2⟩]

/-- C2: `generateTerrain` evaluates exactly the ordered rule chain of
section 4.4 (first match wins, literal thresholds); in particular every point
with `normalizedEdgeDist < 0.15` whose draw satisfies `r < 0.6` is mountains
regardless of its center distance, and a point matching none of the six rules
is plains. -/
theorem generateTerrain_rule_chain (x y w h : ℚ) (seed : ℤ)
    (hw : 0 < w) (hh : 0 < h) :
    generateTerrain x y w h seed
      = specClassify (normalizedDist x y w h) (normalizedEdgeDist x y w h)
          (nextVal seed) ∧
    (normalizedEdgeDist x y w h < 15/100 → nextVal seed < 6/10 →
      generateTerrain x y w h seed = "mountains") ∧
    (¬(normalizedEdgeDist x y w h < 15/100 ∧ nextVal seed < 6/10) →
      ¬(normalizedEdgeDist x y w h < 2/10 ∧ normalizedDist x y w h < (7/10 : ℝ) ∧
          nextVal seed < 7/10) →
      ¬(normalizedEdgeDist x y w h < 3/10 ∧ nextVal seed < 5/10) →
      ¬(normalizedDist x y w h < (5/10 : ℝ) ∧ nextVal seed < 6/10) →
      ¬(nextVal seed < 25/100) →
      ¬(normalizedDist x y w h > (6/10 : ℝ) ∧ nextVal seed < 3/10) →
      generateTerrain x y w h seed = "plains") := by
  refine ⟨rfl, fun h1 h2 => generateTerrain_mountains h1 h2,
    fun n1 n2 n3 n4 n5 n6 => ?_⟩
  unfold generateTerrain
  rw [if_neg n1, if_neg n2, if_neg n3, if_neg n4, if_neg n5, if_neg n6]

/-- Witness for C2 at the point (1, 15) on a 30 x 30 map with seed 0. -/
theorem generateTerrain_rule_chain_witness :
    generateTerrain 1 15 30 30 0
      = specClassify (normalizedDist 1 15 30 30) (normalizedEdgeDist 1 15 30 30)
          (nextVal 0) ∧
    (normalizedEdgeDist 1 15 30 30 < 15/100 → nextVal 0 < 6/10 →
      generateTerrain 1 15 30 30 0 = "mountains") ∧
    (¬(normalizedEdgeDist 1 15 30 30 < 15/100 ∧ nextVal 0 < 6/10) →
      ¬(normalizedEdgeDist 1 15 30 30 < 2/10 ∧
          normalizedDist 1 15 30 30 < (7/10 : ℝ) ∧ nextVal 0 < 7/10) →
      ¬(normalizedEdgeDist 1 15 30 30 < 3/10 ∧ nextVal 0 < 5/10) →
      ¬(normalizedDist 1 15 30 30 < (5/10 : ℝ) ∧ nextVal 0 < 6/10) →
      ¬(nextVal 0 < 25/100) →
      ¬(normalizedDist 1 15 30 30 > (6/10 : ℝ) ∧ nextVal 0 < 3/10) →
      generateTerrain 1 15 30 30 0 = "plains") :=
  generateTerrain_rule_chain 1 15 30 30 0 (by norm_num) (by norm_num)

/-! ## Resources and metadata (metadataGenerator.ts) -/

/-- The `{food, gold, military}` record of `generateResources`. -/
structure TerritoryResources where
  food : ℤ
  gold : ℤ
  military : ℤ
deriving Repr, DecidableEq

/-- The fixed 12-entry medieval culture list of metadataGenerator.ts. -/
def cultures : List String :=
  ["Gothic", "Norman", "Saxon", "Celtic", "Frankish", "Byzantine",
   "Slavic", "Norse", "Iberian", "Lombard", "Moorish", "Venetian"]

/-- JavaScript array indexing `l[i]`: the element for an in-range index,
the `undefined` value otherwise (which JS string concatenation renders as
the string "undefined"). -/
def jsIndex (l : List String) (i : ℤ) : String :=
  if 0 ≤ i ∧ i < l.length then l.getD i.toNat "" else "undefined"

/-- The `switch (terrain)` of `generateResources`: three successive
`nextInt` draws on a fresh `SeededRandom(seed)`, with per-terrain ranges,
defaulting to 50/50/50.  TypeScript enum values are runtime strings, so the
scrutinee is modelled as a `String`. -/
def generateResources (terrain : String) (seed : ℤ) : TerritoryResources :=
  if terrain = "plains" then
    { food := nextIntVal 70 95 seed, gold := nextIntVal 40 60 (stepSeed seed),
      military := nextIntVal 50 70 (stepSeed (stepSeed seed)) }
  else if terrain = "forest" then
    { food := nextIntVal 60 80 seed, gold := nextIntVal 30 50 (stepSeed seed),
      military := nextIntVal 40 60 (stepSeed (stepSeed seed)) }
  else if terrain = "mountains" then
    { food := nextIntVal 20 40 seed, gold := nextIntVal 70 95 (stepSeed seed),
      military := nextIntVal 60 85 (stepSeed (stepSeed seed)) }
  else if terrain = "desert" then
    { food := nextIntVal 15 35 seed, gold := nextIntVal 50 80 (stepSeed seed),
      military := nextIntVal 30 50 (stepSeed (stepSeed seed)) }
  else if terrain = "hills" then
    { food := nextIntVal 50 70 seed, gold := nextIntVal 55 75 (stepSeed seed),
      military := nextIntVal 55 75 (stepSeed (stepSeed seed)) }
  else if terrain = "coastal" then
    { food := nextIntVal 65 85 seed, gold := nextIntVal 60 85 (stepSeed seed),
      military := nextIntVal 45 65 (stepSeed (stepSeed seed)) }
  else
    { food := 50, gold := 50, military := 50 }

/-- The `TerritoryMetadata` record of Territory.ts (culture is a plain
string at runtime). -/
structure TerritoryMetadata where
  population : ℤ
  terrain : String
  resources : TerritoryResources
  culture : String
  development : ℤ

/-- The `switch (terrain)` drawing `basePopulation` in `generateMetadata`:
the drawn base together with the RNG state after the switch (the default
branch draws nothing). -/
def basePopulationDraw (terrain : String) (seed : ℤ) : ℤ × ℤ :=
  if terrain = "plains" then (nextIntVal 8000 15000 seed, stepSeed seed)
  else if terrain = "forest" then (nextIntVal 5000 10000 seed, stepSeed seed)
  else if terrain = "mountains" then (nextIntVal 2000 5000 seed, stepSeed seed)
  else if terrain = "desert" then (nextIntVal 1000 4000 seed, stepSeed seed)
  else if terrain = "hills" then (nextIntVal 6000 12000 seed, stepSeed seed)
  else if terrain = "coastal" then (nextIntVal 10000 18000 seed, stepSeed seed)
  else (5000, seed)

/-- `generateMetadata(x, y, width, height, area, seed)` of
metadataGenerator.ts: terrain from position, resources from a generator
seeded `seed + 1000`, base population and culture from the generator seeded
`seed`, population scaled by `sqrt(area / avgArea)` with
`avgArea = width * height / 30`, development derived from the resources. -/
noncomputable def generateMetadata (x y w h area : ℚ) (seed : ℤ) :
    TerritoryMetadata :=
  let terrain := generateTerrain x y w h seed
  let resources := generateResources terrain (seed + 1000)
  let base := basePopulationDraw terrain seed
  let avgArea : ℚ := w * h / 30
  let areaMultiplier : ℝ := Real.sqrt ((area / avgArea : ℚ))
  { population := round ((base.1 : ℝ) * areaMultiplier)
    terrain := terrain
    resources := resources
    culture := jsIndex cultures (nextIntVal 0 ((cultures.length : ℤ) - 1) base.2)
    development := round ((resources.gold : ℚ) * (4/10) + (resources.food : ℚ) * (3/10)
      + (resources.military : ℚ) * (3/10)) }

/-- Modelled from the spec's resource table semantics: three successive
`nextInt` draws (food, gold, military) with the given bounds on one
generator started in state `s0`. -/
def threeDraws (s0 lo1 hi1 lo2 hi2 lo3 hi3 : ℤ) : TerritoryResources :=
  { food := nextIntVal lo1 hi1 s0
    gold := nextIntVal lo2 hi2 (stepSeed s0)
    military := nextIntVal lo3 hi3 (stepSeed (stepSeed s0)) }

/-- C3: the territory resources are three successive `nextInt` draws on a
generator seeded `seed + 1000`, with exactly the per-terrain range table of
the spec, and any terrain value outside the six known ones yields 50/50/50. -/
theorem generateResources_table (x y w h area : ℚ) (seed : ℤ) :
    (generateMetadata x y w h area seed).resources
      = generateResources (generateTerrain x y w h seed) (seed + 1000) ∧
    (∀ s : ℤ,
      generateResources "plains" s = threeDraws s 70 95 40 60 50 70 ∧
      generateResources "forest" s = threeDraws s 60 80 30 50 40 60 ∧
      generateResources "mountains" s = threeDraws s 20 40 70 95 60 85 ∧
      generateResources "desert" s = threeDraws s 15 35 50 80 30 50 ∧
      generateResources "hills" s = threeDraws s 50 70 55 75 55 75 ∧
      generateResources "coastal" s = threeDraws s 65 85 60 85 45 65) ∧
    (∀ t : String,
      t ∉ (["plains", "forest", "mountains", "desert", "hills", "coastal"] :
        List String) →
      ∀ s : ℤ, generateResources t s = ⟨50, 50, 50⟩) := by
  refine ⟨rfl, fun s => ⟨rfl, rfl, rfl, rfl, rfl, rfl⟩, fun t ht s => ?_⟩
  simp only [List.mem_cons, List.mem_singleton, not_or] at ht
  obtain ⟨h1, h2, h3, h4, h5, h6, -⟩ := ht
  simp [generateResources, h1, h2, h3, h4, h5, h6]

/-- Witness for C3: the metadata wiring at a concrete input, the plains row
of the table at state 7, and the default row at the unknown terrain value
"swamp". -/
theorem generateResources_table_witness :
    (generateMetadata 1 15 30 30 30 0).resources
      = generateResources (generateTerrain 1 15 30 30 0) (0 + 1000) ∧
    generateResources "plains" 7 = threeDraws 7 70 95 40 60 50 70 ∧
    generateResources "swamp" 7 = ⟨50, 50, 50⟩ :=
  ⟨(generateResources_table 1 15 30 30 30 0).1,
    ((generateResources_table 1 15 30 30 30 0).2.1 7).1,
    (generateResources_table 1 15 30 30 30 0).2.2 "swamp" (by decide) 7⟩

/-- Modelled from claim C4's words: a base population drawn as a further
`nextInt` on the same generator used for the resources (the one seeded
`seed + 1000`), performed after the three resource draws, from the
per-terrain base ranges. -/
def claimBasePopulation (terrain : String) (seed : ℤ) : ℤ :=
  let s3 := stepSeed (stepSeed (stepSeed (seed + 1000)))
  if terrain = "plains" then nextIntVal 8000 15000 s3
  else if terrain = "forest" then nextIntVal 5000 10000 s3
  else if terrain = "mountains" then nextIntVal 2000 5000 s3
  else if terrain = "desert" then nextIntVal 1000 4000 s3
  else if terrain = "hills" then nextIntVal 6000 12000 s3
  else if terrain = "coastal" then nextIntVal 10000 18000 s3
  else 5000

/-- Modelled from claim C4's words: `round(basePopulation * sqrt(area / ((width*height)/30)))`
with the base population drawn from the resources generator. -/
noncomputable def claimPopulation (terrain : String) (seed : ℤ) (area w h : ℚ) : ℤ :=
  round ((claimBasePopulation terrain seed : ℝ) * Real.sqrt ((area / (w * h / 30) : ℚ)))

lemma nextVal_eval {s v : ℤ} (h : stepSeed s = v) : nextVal s = (v : ℚ) / 233280 := by
  rw [nextVal, h]

/-- C4 counterexample: at the point (1, 15) on a 30 x 30 map with seed 0 and
`area = avgArea = 30` (so the scaling factor is exactly 1), the terrain is
mountains and the code's population is 2634 — the first `nextInt` of the
generator seeded `seed` — whereas the claimed draw on the resources
generator (seeded `seed + 1000`, after the three resource draws) gives 4291. -/
theorem population_generator_counterexample :
    (generateMetadata 1 15 30 30 30 0).population = 2634 ∧
    claimPopulation (generateTerrain 1 15 30 30 0) 0 30 30 30 = 4291 ∧
    (generateMetadata 1 15 30 30 30 0).population
      ≠ claimPopulation (generateTerrain 1 15 30 30 0) 0 30 30 30 := by
  have hterrain : generateTerrain 1 15 30 30 0 = "mountains" := by
    apply generateTerrain_mountains
    · rw [normalizedEdgeDist, distFromEdge]; norm_num
    · rw [nextVal_eval (by decide : stepSeed 0 = 49297)]; norm_num
  have hsqrt : Real.sqrt ((30 / (30 * 30 / 30 : ℚ) : ℚ)) = 1 := by
    norm_num
  have hbase : (basePopulationDraw (generateTerrain 1 15 30 30 0) 0).1 = 2634 := by
    rw [hterrain]
    show nextIntVal 2000 5000 0 = 2634
    rw [nextIntVal, nextVal_eval (by decide : stepSeed 0 = 49297)]
    norm_num
  have hclaimbase : claimBasePopulation (generateTerrain 1 15 30 30 0) 0 = 4291 := by
    rw [hterrain, claimBasePopulation]
    have e1 : stepSeed (stepSeed (stepSeed (0 + 1000))) = 17671 := by decide
    simp only [e1]
    show nextIntVal 2000 5000 17671 = 4291
    rw [nextIntVal, nextVal_eval (by decide : stepSeed 17671 = 178148)]
    norm_num
  have hcode : (generateMetadata 1 15 30 30 30 0).population = 2634 := by
    show round (((basePopulationDraw (generateTerrain 1 15 30 30 0) 0).1 : ℝ)
      * Real.sqrt ((30 / (30 * 30 / 30 : ℚ) : ℚ))) = 2634
    rw [hbase, hsqrt, mul_one, round_intCast]
  have hclaim : claimPopulation (generateTerrain 1 15 30 30 0) 0 30 30 30 = 4291 := by
    rw [claimPopulation, hclaimbase, hsqrt, mul_one, round_intCast]
  exact ⟨hcode, hclaim, by rw [hcode, hclaim]; norm_num⟩

/-- C4 (amended): the base population is drawn as the first `nextInt` on a
fresh generator seeded with the metadata seed itself (not the resources
generator), using the per-terrain base ranges, and
`population = round(base * sqrt(area / ((width*height)/30)))`. -/
theorem generateMetadata_population (x y w h area : ℚ) (seed : ℤ) :
    (generateMetadata x y w h area seed).population
      = round (((basePopulationDraw (generateTerrain x y w h seed) seed).1 : ℝ)
          * Real.sqrt ((area / (w * h / 30) : ℚ))) ∧
    (∀ s : ℤ,
      (basePopulationDraw "plains" s).1 = nextIntVal 8000 15000 s ∧
      (basePopulationDraw "forest" s).1 = nextIntVal 5000 10000 s ∧
      (basePopulationDraw "mountains" s).1 = nextIntVal 2000 5000 s ∧
      (basePopulationDraw "desert" s).1 = nextIntVal 1000 4000 s ∧
      (basePopulationDraw "hills" s).1 = nextIntVal 6000 12000 s ∧
      (basePopulationDraw "coastal" s).1 = nextIntVal 10000 18000 s) ∧
    (∀ t : String,
      t ∉ (["plains", "forest", "mountains", "desert", "hills", "coastal"] :
        List String) →
      ∀ s : ℤ, (basePopulationDraw t s).1 = 5000) := by
  refine ⟨rfl, fun s => ⟨rfl, rfl, rfl, rfl, rfl, rfl⟩, fun t ht s => ?_⟩
  simp only [List.mem_cons, List.mem_singleton, not_or] at ht
  obtain ⟨h1, h2, h3, h4, h5, h6, -⟩ := ht
  simp [basePopulationDraw, h1, h2, h3, h4, h5, h6]

/-- Witness for C4's amended theorem: the population wiring at a concrete
input, the plains base range at state 7, and the default base at the unknown
terrain value "swamp". -/
theorem generateMetadata_population_witness :
    (generateMetadata 1 15 30 30 30 0).population
      = round (((basePopulationDraw (generateTerrain 1 15 30 30 0) 0).1 : ℝ)
          * Real.sqrt ((30 / (30 * 30 / 30 : ℚ) : ℚ))) ∧
    (basePopulationDraw "plains" 7).1 = nextIntVal 8000 15000 7 ∧
    (basePopulationDraw "swamp" 7).1 = 5000 :=
  ⟨(generateMetadata_population 1 15 30 30 30 0).1,
    ((generateMetadata_population 1 15 30 30 30 0).2.1 7).1,
    (generateMetadata_population 1 15 30 30 30 0).2.2 "swamp" (by decide) 7⟩

/-! ## Colors (colorGenerator.ts, terrain-aware variant) -/

/-- Truncation of a rational toward zero, as JS number-to-integer steps do. -/
def qTrunc (q : ℚ) : ℤ := if 0 ≤ q then ⌊q⌋ else ⌈q⌉

/-- JS `%` on fractional numbers: the floating-point remainder,
`a - b * trunc(a / b)`. -/
def jsFmod (a b : ℚ) : ℚ := a - b * (qTrunc (a / b) : ℚ)

/-- JS `Number.prototype.toString(16)` for an integer value. -/
def jsToString16 (n : ℤ) : String :=
  if n < 0 then "-" ++ (Nat.toDigits 16 n.natAbs).asString
  else (Nat.toDigits 16 n.toNat).asString

/-- JS `String.prototype.padStart(2, '0')`. -/
def padStart2 (s : String) : String :=
  if 2 ≤ s.length then s
  else String.mk (List.replicate (2 - s.length) '0') ++ s

/-- `hslToHex` of colorGenerator.ts (exact rational arithmetic). -/
def hslToHex (h s l : ℚ) : String :=
  let l1 := l / 100
  let a := s * min l1 (1 - l1) / 100
  let f : ℚ → String := fun n =>
    let k := jsFmod (n + h / 30) 12
    let color := l1 - a * max (min (min (k - 3) (9 - k)) 1) (-1)
    padStart2 (jsToString16 (round (255 * color)))
  "#" ++ f 0 ++ f 8 ++ f 4

/-- `generateTerrainColor(terrain, index, seed)` of colorGenerator.ts:
terrain-aware HSL base values converted to a hex string. -/
def generateTerrainColor (terrain : String) (index seed : ℤ) : String :=
  let hsl : ℤ × ℤ × ℤ :=
    if terrain = "plains" then
      (80 + Int.tmod (index * 15) 40, 45 + Int.tmod seed 15, 50 + Int.tmod (index * 5) 15)
    else if terrain = "forest" then
      (120 + Int.tmod (index * 10) 30, 50 + Int.tmod seed 20, 40 + Int.tmod (index * 5) 15)
    else if terrain = "mountains" then
      (0, 5 + Int.tmod seed 10, 45 + Int.tmod (index * 10) 25)
    else if terrain = "desert" then
      (40 + Int.tmod (index * 10) 30, 55 + Int.tmod seed 15, 55 + Int.tmod (index * 5) 15)
    else if terrain = "hills" then
      (25 + Int.tmod (index * 15) 35, 40 + Int.tmod seed 20, 45 + Int.tmod (index * 5) 15)
    else if terrain = "coastal" then
      (200 + Int.tmod (index * 10) 40, 50 + Int.tmod seed 20, 50 + Int.tmod (index * 5) 15)
    else (Int.tmod (index * 50) 360, 50, 50)
  hslToHex (hsl.1 : ℚ) (hsl.2.1 : ℚ) (hsl.2.2 : ℚ)

/-! ## Name generator (nameGenerator.ts) -/

/-- The prefix syllable table of nameGenerator.ts. -/
def prefixes : List String :=
  ["Ald", "Bal", "Cor", "Dun", "Eld", "Fal", "Gar", "Hil", "Kal", "Lor",
   "Mor", "Nor", "Ost", "Pel", "Quen", "Rav", "Sil", "Thal", "Val", "Wel",
   "Wyn", "Xer", "Yor", "Zar", "Bran", "Crim", "Drak", "Eber", "Frey", "Glen"]

/-- The middle syllable table of nameGenerator.ts. -/
def middles : List String :=
  ["dor", "mar", "wen", "thor", "var", "len", "dan", "kel", "rin", "mor",
   "wyn", "dal", "gar", "ven", "ton", "burg", "ham", "shire", "dale", "wood",
   "mer", "son", "ter", "den", "ford", "mont", "vale", "ridge", "stone", "haven"]

/-- The suffix syllable table of nameGenerator.ts. -/
def suffixes : List String :=
  ["ia", "or", "en", "ar", "on", "us", "um", "land", "mark", "reich",
   "dom", "hold", "stead", "ton", "field", "mere", "moor", "crest", "peak", "watch"]

/-- The body of `generateTerritoryName` as a function of the RNG state `s1`
reached by the first `next()` call: `rand = s1 / 233280` selects the name
structure, and three further draws select the syllables. -/
def nameOfState (s1 : ℤ) : String :=
  let rand : ℚ := (s1 : ℚ) / 233280
  let pre := jsIndex prefixes ⌊nextVal s1 * (prefixes.length : ℚ)⌋
  let mid := jsIndex middles ⌊nextVal (stepSeed s1) * (middles.length : ℚ)⌋
  let suf := jsIndex suffixes ⌊nextVal (stepSeed (stepSeed s1)) * (suffixes.length : ℚ)⌋
  if rand < 6/10 then pre ++ mid ++ suf
  else if rand < 9/10 then pre ++ suf
  else pre ++ mid

/-- `generateTerritoryName(seed)`: a fresh `SeededRandom(seed)` first steps
to `stepSeed seed`; the rest of the name is a function of that state. -/
def generateTerritoryName (seed : ℤ) : String := nameOfState (stepSeed seed)

/-- The `while (names.size < count)` loop of `generateTerritoryNames`,
with fuel.  The JS `Set` preserves insertion order, so it is a
duplicate-free list extended at the back; `none` means the given fuel was
exhausted with the loop condition still true (the unbounded JS loop has not
terminated within `fuel` iterations). -/
def namesLoop (count : ℤ) : ℕ → List String → ℤ → Option (List String)
  | 0, names, _ => if (names.length : ℤ) < count then none else some names
  | fuel + 1, names, seed =>
    if (names.length : ℤ) < count then
      namesLoop count fuel
        (if generateTerritoryName seed ∈ names then names
         else names ++ [generateTerritoryName seed]) (seed + 1)
    else some names

/-- `generateTerritoryNames(count, baseSeed)` of nameGenerator.ts, fueled. -/
def generateTerritoryNames (fuel : ℕ) (count baseSeed : ℤ) : Option (List String) :=
  namesLoop count fuel [] baseSeed

lemma neg_tmod (a b : ℤ) : Int.tmod (-a) b = -(Int.tmod a b) := by
  rw [Int.tmod_def, Int.tmod_def, Int.neg_tdiv]
  ring

lemma stepSeed_mem_Icc (s : ℤ) :
    stepSeed s ∈ Finset.Icc (-233279 : ℤ) 233279 := by
  have hub : stepSeed s < 233280 := stepSeed_lt s
  have hlb : -233280 < stepSeed s := by
    rcases le_or_lt 0 (s * 9301 + 49297) with h | h
    · have := Int.tmod_nonneg (233280 : ℤ) h
      unfold stepSeed
      omega
    · have h1 : Int.tmod (-(s * 9301 + 49297)) 233280 < 233280 :=
        Int.tmod_lt_of_pos _ (by norm_num)
      have h2 : Int.tmod (-(s * 9301 + 49297)) 233280
          = -(Int.tmod (s * 9301 + 49297) 233280) := neg_tmod _ _
      unfold stepSeed
      omega
  simp only [Finset.mem_Icc]
  omega

/-- The finite set of all names `generateTerritoryName` can ever produce:
the name is a function of the first post-step RNG state, which lies in
`[-233279, 233279]`. -/
def achievableNames : Finset String :=
  (Finset.Icc (-233279 : ℤ) 233279).image nameOfState

lemma generateTerritoryName_mem_achievable (seed : ℤ) :
    generateTerritoryName seed ∈ achievableNames :=
  Finset.mem_image.2 ⟨stepSeed seed, stepSeed_mem_Icc seed, rfl⟩

lemma achievableNames_card_le : achievableNames.card ≤ 466559 := by
  have h := Finset.card_image_le (s := Finset.Icc (-233279 : ℤ) 233279)
    (f := nameOfState)
  have h2 : (Finset.Icc (-233279 : ℤ) 233279).card = 466559 := by
    rw [Int.card_Icc]
    rfl
  rw [achievableNames]
  omega

lemma names_length_le {names : List String} (hnd : names.Nodup)
    (hmem : ∀ n ∈ names, n ∈ achievableNames) : names.length ≤ 466559 := by
  have h1 : names.toFinset ⊆ achievableNames := fun n hn =>
    hmem n (List.mem_toFinset.1 hn)
  have h2 : names.toFinset.card = names.length := List.toFinset_card_of_nodup hnd
  have h3 := Finset.card_le_card h1
  have h4 := achievableNames_card_le
  omega

lemma namesLoop_none {count : ℤ} (hcount : 466559 < count) :
    ∀ (fuel : ℕ) (names : List String) (seed : ℤ), names.Nodup →
      (∀ n ∈ names, n ∈ achievableNames) →
      namesLoop count fuel names seed = none := by
  intro fuel
  induction fuel with
  | zero =>
    intro names seed hnd hmem
    have := names_length_le hnd hmem
    rw [namesLoop, if_pos (by omega)]
  | succ fuel ih =>
    intro names seed hnd hmem
    have := names_length_le hnd hmem
    rw [namesLoop, if_pos (by omega)]
    by_cases hdup : generateTerritoryName seed ∈ names
    · rw [if_pos hdup]
      exact ih names (seed + 1) hnd hmem
    · rw [if_neg hdup]
      refine ih _ (seed + 1) ?_ ?_
      · exact List.Nodup.append hnd (List.nodup_singleton _)
          (by simpa [List.disjoint_singleton] using hdup)
      · intro n hn
        rcases List.mem_append.1 hn with h | h
        · exact hmem n h
        · rcases List.mem_singleton.1 h with rfl
          exact generateTerritoryName_mem_achievable seed

/-- C10 (code bug): the uniqueness loop of `generateTerritoryNames` has no
attempt bound and does not terminate for every count: at most 466559
distinct names exist (the name is a function of an RNG state in
`[-233279, 233279]`), so for `count = 1000000` the set can never reach the
requested size and the `while` loop condition stays true after every finite
number of iterations. -/
theorem generateTerritoryNames_diverges (fuel : ℕ) :
    generateTerritoryNames fuel 1000000 0 = none :=
  namesLoop_none (by norm_num) fuel [] 0 List.nodup_nil (by simp)

/-- Witness instantiating the divergence theorem at 10 loop iterations. -/
theorem generateTerritoryNames_diverges_witness :
    generateTerritoryNames 10 1000000 0 = none :=
  generateTerritoryNames_diverges 10

/-! ## Map generator (mapGenerator.ts) -/

/-- The external d3-delaunay capability: for a point set and the rectangular
bounds `[0, 0, width, height]`, `voronoi.cellPolygon(i)` returns either a
cell polygon or nothing.  It is consumed, not reimplemented. -/
abbrev Partitioner :=
  List (ℚ × ℚ) → (ℚ × ℚ) → ℕ → Option (List (ℚ × ℚ))

/-- The `MapConfig` record (Territory.ts).  The optional-seed UI default
`Date.now()` is wall-clock and outside the deterministic core; the seed is
therefore explicit here. -/
structure MapConfig where
  width : ℚ
  height : ℚ
  territoryCount : ℤ
  seed : ℤ

/-- The initial random points of `generateRelaxedPoints`: `count` pushes of
`[rng.next() * width, rng.next() * height]` on one `SeededRandom(seed)`. -/
def initPoints (w h : ℚ) : ℕ → ℤ → List (ℚ × ℚ)
  | 0, _ => []
  | n + 1, s =>
    (nextVal s * w, nextVal (stepSeed s) * h) :: initPoints w h n (stepSeed (stepSeed s))

/-- Centroid computation of a Voronoi cell inside the relaxation loop:
the mean of all cell vertices (d3 cells carry a duplicated closing vertex,
which the source includes in the mean). -/
def centroid (cell : List (ℚ × ℚ)) : ℚ × ℚ :=
  ((cell.map Prod.fst).sum / cell.length, (cell.map Prod.snd).sum / cell.length)

/-- One Lloyd's-relaxation iteration: each point is replaced by its cell's
centroid, or kept unchanged when no cell is available. -/
def relaxOnce (v : Partitioner) (w h : ℚ) (pts : List (ℚ × ℚ)) : List (ℚ × ℚ) :=
  (List.range pts.length).map fun i =>
    match v pts (w, h) i with
    | some cell => centroid cell
    | none => pts.getD i (0, 0)

/-- `generateRelaxedPoints(count, width, height, seed, relaxationIterations = 2)`
of mapGenerator.ts, over the abstract partitioner. -/
def generateRelaxedPoints (count : ℤ) (w h : ℚ) (seed : ℤ) (v : Partitioner)
    (relaxationIterations : ℕ := 2) : List (ℚ × ℚ) :=
  (relaxOnce v w h)^[relaxationIterations] (initPoints w h count.toNat seed)

/-- `calculateArea(borderPoints)` of metadataGenerator.ts: the shoelace sum
with wrap-around indexing, halved, absolute value. -/
def calculateArea (borderPoints : List (ℚ × ℚ)) : ℚ :=
  let n := borderPoints.length
  |(List.range n).foldl (fun acc i =>
    let p := borderPoints.getD i (0, 0)
    let q := borderPoints.getD ((i + 1) % n) (0, 0)
    acc + (p.1 * q.2 - q.1 * p.2)) 0 / 2|

/-- The `Territory` record of Territory.ts. -/
structure Territory where
  id : String
  name : String
  color : String
  centerX : ℚ
  centerY : ℚ
  borderPoints : List (ℚ × ℚ)
  area : ℚ
  metadata : TerritoryMetadata

/-- The territory object pushed by `generateMap` for index `i` whose cell
polygon is `cell`: the duplicated closing vertex is removed by
`cell.slice(0, -1)`, the area is computed from the remaining ring, and the
metadata seed is `seed + i`. -/
noncomputable def buildTerritory (cfg : MapConfig) (names : List String)
    (points : List (ℚ × ℚ)) (i : ℕ) (cell : List (ℚ × ℚ)) : Territory :=
  let borderPoints := cell.dropLast
  let area := calculateArea borderPoints
  let x := (points.getD i (0, 0)).1
  let y := (points.getD i (0, 0)).2
  let metadata := generateMetadata x y cfg.width cfg.height area (cfg.seed + i)
  { id := "territory-" ++ toString i
    name := names.getD i "undefined"
    color := generateTerrainColor metadata.terrain (i : ℤ) cfg.seed
    centerX := x
    centerY := y
    borderPoints := borderPoints
    area := area
    metadata := metadata }

/-- `generateMap(config)` of mapGenerator.ts over the abstract partitioner,
with the name loop fueled: relaxed points, names, then one pass over the
indices `0 .. territoryCount - 1` emitting a territory exactly when the
partitioner returns a cell polygon. -/
noncomputable def generateMap (cfg : MapConfig) (v : Partitioner) (fuel : ℕ) :
    Option (List Territory) :=
  let points := generateRelaxedPoints cfg.territoryCount cfg.width cfg.height cfg.seed v
  match generateTerritoryNames fuel cfg.territoryCount cfg.seed with
  | none => none
  | some names =>
    some ((List.range cfg.territoryCount.toNat).filterMap fun i =>
      (v points (cfg.width, cfg.height) i).map (buildTerritory cfg names points i))

/-- A toy partitioner whose single-vertex cell doubles its point, making the
number of relaxation iterations observable: after `k` iterations a point is
scaled by `2^k`. -/
def vDouble : Partitioner := fun pts _ i =>
  match pts.get? i with
  | some p => some [(2 * p.1, 2 * p.2)]
  | none => none

/-- C6 (code bug): when the relaxation-iteration count is not supplied — and
`generateMap` never supplies it — `generateRelaxedPoints` performs 2
iterations, not the 3 the documentation states: the defaulted call equals
the 2-iteration run, and differs from the 3-iteration run on a partitioner
that doubles the point each iteration. -/
theorem generateRelaxedPoints_default_two :
    (∀ (count : ℤ) (w h : ℚ) (seed : ℤ) (v : Partitioner),
      generateRelaxedPoints count w h seed v
        = (relaxOnce v w h)^[2] (initPoints w h count.toNat seed)) ∧
    generateRelaxedPoints 1 1 1 0 vDouble
      ≠ (relaxOnce vDouble 1 1)^[3] (initPoints 1 1 1 0) := by
  refine ⟨fun count w h seed v => rfl, ?_⟩
  have h49297 : stepSeed 0 = 49297 := by decide
  have hne : nextVal 0 ≠ 0 := by
    rw [nextVal_eval h49297]
    norm_num
  intro h
  have h4 : (4 : ℚ) * (nextVal 0 * 1) = 8 * (nextVal 0 * 1) := by
    have := congrArg (fun l => (l.getD 0 (0, 0)).1) h
    simpa [generateRelaxedPoints, Function.iterate_succ, initPoints, relaxOnce,
      vDouble, centroid, mul_comm, mul_assoc, mul_left_comm] using this
  simp only [mul_one] at h4
  have : (4 : ℚ) * nextVal 0 ≠ 8 * nextVal 0 := by
    intro hc
    apply hne
    linarith
  exact this h4

/-- Witness instantiating the defaulted-call equation of C6's theorem. -/
theorem generateRelaxedPoints_default_two_witness :
    generateRelaxedPoints 2 5 7 3 vDouble
      = (relaxOnce vDouble 5 7)^[2] (initPoints 5 7 (2 : ℤ).toNat 3) :=
  generateRelaxedPoints_default_two.1 2 5 7 3 vDouble

/-- A partitioner that never returns a cell. -/
def vNone : Partitioner := fun _ _ _ => none

/-- C9 counterexample: a config with `territoryCount = 0` does not fail with
a validation error — `generateMap` completes normally and returns the empty
territory list. -/
theorem generateMap_no_validation_counterexample :
    generateMap ⟨1200, 800, 0, 0⟩ vNone 1 = some [] := rfl

/-- C9 (amended): the code performs no input validation at all.  Any config
with `territoryCount ≤ 0` yields `some []` (an empty territory list, no
error), and for every config whatsoever the only failure channel of the
pipeline is exhaustion of the name loop — non-positive width and height are
passed through generation unvalidated. -/
theorem generateMap_no_validation (w h : ℚ) (count seed : ℤ)
    (v : Partitioner) (fuel : ℕ) :
    (count ≤ 0 → generateMap ⟨w, h, count, seed⟩ v fuel = some []) ∧
    ((generateMap ⟨w, h, count, seed⟩ v fuel).isSome
      ↔ (generateTerritoryNames fuel count seed).isSome) := by
  constructor
  · intro hcount
    have hnames : generateTerritoryNames fuel count seed = some [] := by
      rw [generateTerritoryNames]
      cases fuel with
      | zero => rw [namesLoop, if_neg (by simp; omega)]
      | succ fuel => rw [namesLoop, if_neg (by simp; omega)]
    have htn : count.toNat = 0 := Int.toNat_of_nonpos hcount
    simp [generateMap, hnames, htn]
  · rw [generateMap]
    cases hn : generateTerritoryNames fuel count seed <;> simp [hn]

/-- Witness for C9's amended theorem at a config with `territoryCount = -3`
and negative dimensions. -/
theorem generateMap_no_validation_witness :
    generateMap ⟨-5, -8, -3, 9⟩ vNone 2 = some [] ∧
    ((generateMap ⟨-5, -8, -3, 9⟩ vNone 2).isSome
      ↔ (generateTerritoryNames 2 (-3) 9).isSome) :=
  ⟨(generateMap_no_validation (-5) (-8) (-3) 9 vNone 2).1 (by norm_num),
    (generateMap_no_validation (-5) (-8) (-3) 9 vNone 2).2⟩

lemma filterMap_map_proj {α β γ : Type _} (f : ℕ → Option α) (g : ℕ → α → β)
    (F : β → γ) (hv : ℕ → γ) (hF : ∀ i a, F (g i a) = hv i) (l : List ℕ) :
    (l.filterMap (fun i => (f i).map (g i))).map F
      = (l.filter (fun i => (f i).isSome)).map hv := by
  induction l with
  | nil => rfl
  | cons a l ih => cases hfa : f a <;> simp [hfa, ih, hF]

lemma filterMap_map_cell {α β γ : Type _} (f : ℕ → Option α) (g : ℕ → α → β)
    (F : β → γ) (G : α → γ) (hF : ∀ i a, F (g i a) = G a) (l : List ℕ) :
    (l.filterMap (fun i => (f i).map (g i))).map F = (l.filterMap f).map G := by
  induction l with
  | nil => rfl
  | cons a l ih => cases hfa : f a <;> simp [hfa, ih, hF]

/-- C8: a territory is emitted for index `i` exactly when the partitioner
returns a cell polygon for point `i` during final extraction; a missing cell
is silently skipped (no error), the output is ordered by ascending
generation index (visible in the ids), its length is the number of present
cells, and when every cell is present the output has exactly
`territoryCount` entries. -/
theorem generateMap_emission (cfg : MapConfig) (v : Partitioner) (fuel : ℕ)
    (h : (generateMap cfg v fuel).isSome) :
    ((generateMap cfg v fuel).getD []).map Territory.id
      = ((List.range cfg.territoryCount.toNat).filter
          (fun i => (v (generateRelaxedPoints cfg.territoryCount cfg.width
            cfg.height cfg.seed v) (cfg.width, cfg.height) i).isSome)).map
          (fun i => "territory-" ++ toString i) ∧
    ((generateMap cfg v fuel).getD []).length
      = ((List.range cfg.territoryCount.toNat).filter
          (fun i => (v (generateRelaxedPoints cfg.territoryCount cfg.width
            cfg.height cfg.seed v) (cfg.width, cfg.height) i).isSome)).length ∧
    ((∀ i ∈ List.range cfg.territoryCount.toNat,
        (v (generateRelaxedPoints cfg.territoryCount cfg.width cfg.height
          cfg.seed v) (cfg.width, cfg.height) i).isSome) →
      ((generateMap cfg v fuel).getD []).length = cfg.territoryCount.toNat) := by
  cases hn : generateTerritoryNames fuel cfg.territoryCount cfg.seed with
  | none =>
    rw [generateMap] at h
    simp only [hn] at h
    simp at h
  | some names =>
    have hmap : generateMap cfg v fuel
        = some ((List.range cfg.territoryCount.toNat).filterMap fun i =>
            (v (generateRelaxedPoints cfg.territoryCount cfg.width cfg.height
              cfg.seed v) (cfg.width, cfg.height) i).map
              (buildTerritory cfg names (generateRelaxedPoints cfg.territoryCount
                cfg.width cfg.height cfg.seed v) i)) := by
      rw [generateMap]
      simp only [hn]
    rw [hmap]
    simp only [Option.getD_some]
    have hids := filterMap_map_proj
      (fun i => v (generateRelaxedPoints cfg.territoryCount cfg.width cfg.height
        cfg.seed v) (cfg.width, cfg.height) i)
      (buildTerritory cfg names (generateRelaxedPoints cfg.territoryCount
        cfg.width cfg.height cfg.seed v))
      Territory.id (fun i => "territory-" ++ toString i) (fun i a => rfl)
      (List.range cfg.territoryCount.toNat)
    refine ⟨hids, ?_, ?_⟩
    · have hlen := congrArg List.length hids
      simpa using hlen
    · intro hall
      have hfilter : (List.range cfg.territoryCount.toNat).filter
          (fun i => (v (generateRelaxedPoints cfg.territoryCount cfg.width
            cfg.height cfg.seed v) (cfg.width, cfg.height) i).isSome)
          = List.range cfg.territoryCount.toNat :=
        List.filter_eq_self.2 hall
      have hlen := congrArg List.length hids
      simp only [List.length_map] at hlen
      rw [hlen, hfilter, List.length_range]

/-- A toy partitioner returning a fixed closed square ring for index 0 and
nothing for other indices. -/
def vSquare : Partitioner := fun _ _ i =>
  if i = 0 then some [(0, 0), (10, 0), (10, 10), (0, 10), (0, 0)] else none

/-- Witness for C8 at a one-territory config whose single cell is present. -/
theorem generateMap_emission_witness :
    ((generateMap ⟨40, 40, 1, 0⟩ vSquare 1).getD []).map Territory.id
      = ((List.range (1 : ℤ).toNat).filter
          (fun i => (vSquare (generateRelaxedPoints 1 40 40 0 vSquare)
            (40, 40) i).isSome)).map (fun i => "territory-" ++ toString i) ∧
    ((generateMap ⟨40, 40, 1, 0⟩ vSquare 1).getD []).length
      = ((List.range (1 : ℤ).toNat).filter
          (fun i => (vSquare (generateRelaxedPoints 1 40 40 0 vSquare)
            (40, 40) i).isSome)).length ∧
    ((∀ i ∈ List.range (1 : ℤ).toNat,
        (vSquare (generateRelaxedPoints 1 40 40 0 vSquare) (40, 40) i).isSome) →
      ((generateMap ⟨40, 40, 1, 0⟩ vSquare 1).getD []).length = (1 : ℤ).toNat) :=
  generateMap_emission ⟨40, 40, 1, 0⟩ vSquare 1 (by rfl)

/-- C7 (amended): the border points of every emitted territory are the
partitioner's cell vertices with the final vertex removed — the source
strips the duplicated closing point via `cell.slice(0, -1)` — with the
remaining vertices kept in the partitioner's winding order. -/
theorem generateMap_borderPoints (cfg : MapConfig) (v : Partitioner) (fuel : ℕ)
    (h : (generateMap cfg v fuel).isSome) :
    ((generateMap cfg v fuel).getD []).map Territory.borderPoints
      = ((List.range cfg.territoryCount.toNat).filterMap
          (fun i => v (generateRelaxedPoints cfg.territoryCount cfg.width
            cfg.height cfg.seed v) (cfg.width, cfg.height) i)).map
          List.dropLast := by
  cases hn : generateTerritoryNames fuel cfg.territoryCount cfg.seed with
  | none =>
    rw [generateMap] at h
    simp only [hn] at h
    simp at h
  | some names =>
    have hmap : generateMap cfg v fuel
        = some ((List.range cfg.territoryCount.toNat).filterMap fun i =>
            (v (generateRelaxedPoints cfg.territoryCount cfg.width cfg.height
              cfg.seed v) (cfg.width, cfg.height) i).map
              (buildTerritory cfg names (generateRelaxedPoints cfg.territoryCount
                cfg.width cfg.height cfg.seed v) i)) := by
      rw [generateMap]
      simp only [hn]
    rw [hmap]
    simp only [Option.getD_some]
    exact filterMap_map_cell _ _ Territory.borderPoints List.dropLast
      (fun i a => rfl) _

/-- Witness for C7's amended theorem at the square-ring partitioner. -/
theorem generateMap_borderPoints_witness :
    ((generateMap ⟨40, 40, 1, 0⟩ vSquare 1).getD []).map Territory.borderPoints
      = ((List.range (1 : ℤ).toNat).filterMap
          (fun i => vSquare (generateRelaxedPoints 1 40 40 0 vSquare)
            (40, 40) i)).map List.dropLast :=
  generateMap_borderPoints ⟨40, 40, 1, 0⟩ vSquare 1 (by rfl)

/-- C7 counterexample: the partitioner returns the closed five-vertex ring
`[(0,0), (10,0), (10,10), (0,10), (0,0)]` for the single territory, but the
emitted `borderPoints` are only its first four vertices — not exactly the
vertices the partitioner returned. -/
theorem generateMap_borderPoints_counterexample :
    ((generateMap ⟨40, 40, 1, 0⟩ vSquare 1).getD []).map Territory.borderPoints
      = [[((0 : ℚ), (0 : ℚ)), (10, 0), (10, 10), (0, 10)]] ∧
    ((generateMap ⟨40, 40, 1, 0⟩ vSquare 1).getD []).map Territory.borderPoints
      ≠ [[((0 : ℚ), (0 : ℚ)), (10, 0), (10, 10), (0, 10), (0, 0)]] := by
  have h1 : ((generateMap ⟨40, 40, 1, 0⟩ vSquare 1).getD []).map
      Territory.borderPoints
      = [[((0 : ℚ), (0 : ℚ)), (10, 0), (10, 10), (0, 10)]] := by rfl
  refine ⟨h1, ?_⟩
  rw [h1]
  intro hc
  have hlen := congrArg (fun l => (l.headD []).length) hc
  simp at hlen

/-! ## Metadata range invariants (C5) -/

lemma nextIntVal_in_1_100 {mn mx s : ℤ} (hs : 0 ≤ s) (h1 : 1 ≤ mn)
    (h2 : mn ≤ mx) (h3 : mx ≤ 100) :
    1 ≤ nextIntVal mn mx s ∧ nextIntVal mn mx s ≤ 100 :=
  ⟨le_trans h1 (nextIntVal_ge hs h2), le_trans (nextIntVal_le hs h2) h3⟩

lemma generateResources_in_range (t : String) {s : ℤ} (hs : 0 ≤ s) :
    (1 ≤ (generateResources t s).food ∧ (generateResources t s).food ≤ 100) ∧
    (1 ≤ (generateResources t s).gold ∧ (generateResources t s).gold ≤ 100) ∧
    (1 ≤ (generateResources t s).military ∧
      (generateResources t s).military ≤ 100) := by
  have hs1 : 0 ≤ stepSeed s := stepSeed_nonneg hs
  have hs2 : 0 ≤ stepSeed (stepSeed s) := stepSeed_nonneg hs1
  unfold generateResources
  split_ifs <;>
    first
      | exact ⟨nextIntVal_in_1_100 hs (by norm_num) (by norm_num) (by norm_num),
          nextIntVal_in_1_100 hs1 (by norm_num) (by norm_num) (by norm_num),
          nextIntVal_in_1_100 hs2 (by norm_num) (by norm_num) (by norm_num)⟩
      | exact ⟨⟨by norm_num, by norm_num⟩, ⟨by norm_num, by norm_num⟩,
          ⟨by norm_num, by norm_num⟩⟩

lemma round_dev_in_range {f g m : ℤ} (hf1 : 1 ≤ f) (hf2 : f ≤ 100)
    (hg1 : 1 ≤ g) (hg2 : g ≤ 100) (hm1 : 1 ≤ m) (hm2 : m ≤ 100) :
    0 ≤ round ((g : ℚ) * (4/10) + (f : ℚ) * (3/10) + (m : ℚ) * (3/10)) ∧
    round ((g : ℚ) * (4/10) + (f : ℚ) * (3/10) + (m : ℚ) * (3/10)) ≤ 100 := by
  have hfq1 : (1 : ℚ) ≤ (f : ℚ) := by exact_mod_cast hf1
  have hfq2 : (f : ℚ) ≤ 100 := by exact_mod_cast hf2
  have hgq1 : (1 : ℚ) ≤ (g : ℚ) := by exact_mod_cast hg1
  have hgq2 : (g : ℚ) ≤ 100 := by exact_mod_cast hg2
  have hmq1 : (1 : ℚ) ≤ (m : ℚ) := by exact_mod_cast hm1
  have hmq2 : (m : ℚ) ≤ 100 := by exact_mod_cast hm2
  rw [round_eq]
  constructor
  · exact Int.floor_nonneg.2 (by linarith)
  · have h1 : (g : ℚ) * (4/10) + (f : ℚ) * (3/10) + (m : ℚ) * (3/10) + 1/2
        ≤ 201/2 := by linarith
    have h2 := Int.floor_le_floor h1
    have h3 : ⌊(201/2 : ℚ)⌋ = 100 := by norm_num
    omega

lemma basePopulationDraw_fst_nonneg (t : String) {s : ℤ} (hs : 0 ≤ s) :
    0 ≤ (basePopulationDraw t s).1 := by
  unfold basePopulationDraw
  split_ifs <;>
    first
      | exact le_trans (by norm_num) (nextIntVal_ge hs (by norm_num))
      | norm_num

lemma generateMetadata_invariants_core (x y w h area : ℚ) {seed : ℤ}
    (hs : 0 ≤ seed) :
    (1 ≤ (generateMetadata x y w h area seed).resources.food ∧
      (generateMetadata x y w h area seed).resources.food ≤ 100) ∧
    (1 ≤ (generateMetadata x y w h area seed).resources.gold ∧
      (generateMetadata x y w h area seed).resources.gold ≤ 100) ∧
    (1 ≤ (generateMetadata x y w h area seed).resources.military ∧
      (generateMetadata x y w h area seed).resources.military ≤ 100) ∧
    (0 ≤ (generateMetadata x y w h area seed).development ∧
      (generateMetadata x y w h area seed).development ≤ 100) ∧
    (generateMetadata x y w h area seed).development
      = round (((generateMetadata x y w h area seed).resources.gold : ℚ) * (4/10)
          + ((generateMetadata x y w h area seed).resources.food : ℚ) * (3/10)
          + ((generateMetadata x y w h area seed).resources.military : ℚ) * (3/10)) ∧
    0 ≤ (generateMetadata x y w h area seed).population := by
  have hres : (generateMetadata x y w h area seed).resources
      = generateResources (generateTerrain x y w h seed) (seed + 1000) := rfl
  have hr := generateResources_in_range (generateTerrain x y w h seed)
    (s := seed + 1000) (by omega)
  rw [hres]
  refine ⟨hr.1, hr.2.1, hr.2.2, ?_, rfl, ?_⟩
  · have hdev : (generateMetadata x y w h area seed).development
        = round (((generateResources (generateTerrain x y w h seed)
            (seed + 1000)).gold : ℚ) * (4/10)
          + ((generateResources (generateTerrain x y w h seed)
            (seed + 1000)).food : ℚ) * (3/10)
          + ((generateResources (generateTerrain x y w h seed)
            (seed + 1000)).military : ℚ) * (3/10)) := rfl
    rw [hdev]
    exact round_dev_in_range hr.1.1 hr.1.2 hr.2.1.1 hr.2.1.2 hr.2.2.1 hr.2.2.2
  · have hpop : (generateMetadata x y w h area seed).population
        = round (((basePopulationDraw (generateTerrain x y w h seed) seed).1 : ℝ)
            * Real.sqrt ((area / (w * h / 30) : ℚ))) := rfl
    rw [hpop, round_eq]
    apply Int.floor_nonneg.2
    have hb : (0 : ℝ) ≤ ((basePopulationDraw (generateTerrain x y w h seed) seed).1 : ℝ) := by
      exact_mod_cast basePopulationDraw_fst_nonneg _ hs
    have hmul : (0 : ℝ)
        ≤ ((basePopulationDraw (generateTerrain x y w h seed) seed).1 : ℝ)
          * Real.sqrt ((area / (w * h / 30) : ℚ)) :=
      mul_nonneg hb (Real.sqrt_nonneg _)
    linarith

/-- C5 (amended): for every map generated with a nonnegative seed, each
emitted territory has `food, gold, military ∈ [1, 100]`,
`development ∈ [0, 100]` with
`development = round(gold*0.4 + food*0.3 + military*0.3)` (never sampled),
and `population ≥ 0` — strict positivity of the population fails for
degenerate tiny-area cells. -/
theorem generateMap_metadata_invariants (cfg : MapConfig) (v : Partitioner)
    (fuel : ℕ) (hseed : 0 ≤ cfg.seed) :
    ∀ t ∈ (generateMap cfg v fuel).getD [],
      (1 ≤ t.metadata.resources.food ∧ t.metadata.resources.food ≤ 100) ∧
      (1 ≤ t.metadata.resources.gold ∧ t.metadata.resources.gold ≤ 100) ∧
      (1 ≤ t.metadata.resources.military ∧
        t.metadata.resources.military ≤ 100) ∧
      (0 ≤ t.metadata.development ∧ t.metadata.development ≤ 100) ∧
      t.metadata.development
        = round ((t.metadata.resources.gold : ℚ) * (4/10)
            + (t.metadata.resources.food : ℚ) * (3/10)
            + (t.metadata.resources.military : ℚ) * (3/10)) ∧
      0 ≤ t.metadata.population := by
  intro t ht
  cases hn : generateTerritoryNames fuel cfg.territoryCount cfg.seed with
  | none =>
    rw [generateMap] at ht
    simp only [hn] at ht
    simp at ht
  | some names =>
    rw [generateMap] at ht
    simp only [hn, Option.getD_some] at ht
    rcases List.mem_filterMap.1 ht with ⟨i, -, hsome⟩
    rcases Option.map_eq_some'.1 hsome with ⟨cell, -, rfl⟩
    have hmeta : (buildTerritory cfg names (generateRelaxedPoints
        cfg.territoryCount cfg.width cfg.height cfg.seed v) i cell).metadata
        = generateMetadata ((generateRelaxedPoints cfg.territoryCount cfg.width
            cfg.height cfg.seed v).getD i (0, 0)).1
          ((generateRelaxedPoints cfg.territoryCount cfg.width cfg.height
            cfg.seed v).getD i (0, 0)).2
          cfg.width cfg.height (calculateArea cell.dropLast) (cfg.seed + i) := rfl
    rw [hmeta]
    exact generateMetadata_invariants_core _ _ _ _ _ (by positivity)

/-- The single territory emitted by `generateMap` in the square-ring toy
world, written as a closed term. -/
noncomputable def squareTerritory : Territory :=
  buildTerritory ⟨40, 40, 1, 0⟩ [generateTerritoryName 0]
    (generateRelaxedPoints 1 40 40 0 vSquare) 0
    [(0, 0), (10, 0), (10, 10), (0, 10), (0, 0)]

/-- Witness for C5's amended theorem: the hypotheses are discharged at a
concrete config whose single emitted territory is `squareTerritory`. -/
theorem generateMap_metadata_invariants_witness :
    (1 ≤ squareTerritory.metadata.resources.food ∧
      squareTerritory.metadata.resources.food ≤ 100) ∧
    (1 ≤ squareTerritory.metadata.resources.gold ∧
      squareTerritory.metadata.resources.gold ≤ 100) ∧
    (1 ≤ squareTerritory.metadata.resources.military ∧
      squareTerritory.metadata.resources.military ≤ 100) ∧
    (0 ≤ squareTerritory.metadata.development ∧
      squareTerritory.metadata.development ≤ 100) ∧
    squareTerritory.metadata.development
      = round ((squareTerritory.metadata.resources.gold : ℚ) * (4/10)
          + (squareTerritory.metadata.resources.food : ℚ) * (3/10)
          + (squareTerritory.metadata.resources.military : ℚ) * (3/10)) ∧
    0 ≤ squareTerritory.metadata.population :=
  generateMap_metadata_invariants ⟨40, 40, 1, 0⟩ vSquare 1 (by norm_num)
    squareTerritory (by
      have hout : (generateMap ⟨40, 40, 1, 0⟩ vSquare 1).getD []
          = [squareTerritory] := rfl
      rw [hout]
      exact List.mem_singleton.2 rfl)

/-- A toy partitioner returning one degenerate, tiny-area triangular cell
(closed ring) for index 0.  Its area is `5/18501216 = avgArea / (4 * 2634)^2`
for a 30 x 30 map, chosen so the population scaling factor is exactly
`1/(4 * 2634)`. -/
def vTri : Partitioner := fun _ _ i =>
  if i = 0 then some [(0, 0), ((5 : ℚ)/18501216, 0), (0, 2), (0, 0)] else none

lemma nextIntVal_2000_5000_0 : nextIntVal 2000 5000 0 = 2634 := by
  rw [nextIntVal, nextVal_eval (by decide : stepSeed 0 = 49297)]
  norm_num

lemma relaxOnce_vTri (pts : List (ℚ × ℚ)) (hlen : pts.length = 1) :
    relaxOnce vTri 30 30 pts = [((5 : ℚ)/74004864, (1 : ℚ)/2)] := by
  rw [relaxOnce, hlen]
  simp [vTri, centroid, List.range_succ]
  norm_num

lemma relaxedPoints_vTri :
    generateRelaxedPoints 1 30 30 0 vTri = [((5 : ℚ)/74004864, (1 : ℚ)/2)] := by
  show (relaxOnce vTri 30 30)^[2] (initPoints 30 30 (1 : ℤ).toNat 0) = _
  rw [Function.iterate_succ_apply, Function.iterate_succ_apply,
    Function.iterate_zero_apply]
  rw [relaxOnce_vTri _ (by rfl)]

lemma area_vTri :
    calculateArea (([(0, 0), ((5 : ℚ)/18501216, 0), (0, 2), (0, 0)] :
      List (ℚ × ℚ)).dropLast) = 5/18501216 := by
  show calculateArea [(0, 0), ((5 : ℚ)/18501216, 0), (0, 2)] = 5/18501216
  rw [calculateArea]
  norm_num [List.range_succ]

lemma terrain_vTri : generateTerrain ((5 : ℚ)/74004864) ((1 : ℚ)/2) 30 30 0
    = "mountains" := by
  apply generateTerrain_mountains
  · rw [normalizedEdgeDist, distFromEdge]
    norm_num [min_def]
  · rw [nextVal_eval (by decide : stepSeed 0 = 49297)]
    norm_num

lemma population_vTri :
    (generateMetadata ((5 : ℚ)/74004864) ((1 : ℚ)/2) 30 30 ((5 : ℚ)/18501216)
      0).population = 0 := by
  have h1 : (generateMetadata ((5 : ℚ)/74004864) ((1 : ℚ)/2) 30 30
      ((5 : ℚ)/18501216) 0).population
      = round (((basePopulationDraw (generateTerrain ((5 : ℚ)/74004864)
          ((1 : ℚ)/2) 30 30 0) 0).1 : ℝ)
        * Real.sqrt ((((5 : ℚ)/18501216) / (30 * 30 / 30) : ℚ))) := rfl
  rw [h1, terrain_vTri]
  have h2 : (basePopulationDraw "mountains" 0).1 = 2634 := by
    show nextIntVal 2000 5000 0 = 2634
    exact nextIntVal_2000_5000_0
  rw [h2]
  have hq : ((((5 : ℚ)/18501216) / (30 * 30 / 30) : ℚ)) = ((1 : ℚ)/10536)^2 := by
    norm_num
  rw [hq]
  have hc : (((((1 : ℚ)/10536))^2 : ℚ) : ℝ) = ((1/10536 : ℝ))^2 := by
    push_cast
    ring
  rw [hc, Real.sqrt_sq (by norm_num)]
  have h3 : ((2634 : ℤ) : ℝ) * (1/10536 : ℝ) = 1/4 := by norm_num
  rw [h3, round_eq]
  norm_num

/-- C5 counterexample: a map run whose single emitted territory (from a
degenerate, tiny-area cell that the partitioner may legitimately return) has
population 0, violating the claimed `population > 0`. -/
theorem generateMap_population_zero_counterexample :
    ((generateMap ⟨30, 30, 1, 0⟩ vTri 1).getD []).map
      (fun t => t.metadata.population) = [0] := by
  have hout : (generateMap ⟨30, 30, 1, 0⟩ vTri 1).getD []
      = [buildTerritory ⟨30, 30, 1, 0⟩ [generateTerritoryName 0]
          (generateRelaxedPoints 1 30 30 0 vTri) 0
          [(0, 0), ((5 : ℚ)/18501216, 0), (0, 2), (0, 0)]] := rfl
  rw [hout, List.map_cons, List.map_nil]
  have hm : (buildTerritory ⟨30, 30, 1, 0⟩ [generateTerritoryName 0]
      (generateRelaxedPoints 1 30 30 0 vTri) 0
      [(0, 0), ((5 : ℚ)/18501216, 0), (0, 2), (0, 0)]).metadata
      = generateMetadata
          ((generateRelaxedPoints 1 30 30 0 vTri).getD 0 (0, 0)).1
          ((generateRelaxedPoints 1 30 30 0 vTri).getD 0 (0, 0)).2 30 30
          (calculateArea (([(0, 0), ((5 : ℚ)/18501216, 0), (0, 2), (0, 0)] :
            List (ℚ × ℚ)).dropLast))
          (0 + ((0 : ℕ) : ℤ)) := rfl
  rw [hm, relaxedPoints_vTri, area_vTri]
  simp only [List.getD_cons_zero, Nat.cast_zero, add_zero]
  rw [population_vTri]

end MapGen
